import Mathlib

/-
  Verification of the ixbrbot event ingestion and delivery pipeline.

  Shallow embedding of the relevant parts of src/bot.py, src/database.py and
  src/rss_monitor.py.  Python strings are modelled by Lean `String`; all string
  operations are re-implemented structurally over `String.data` so that every
  definition evaluates inside the kernel.  SQLite tables are modelled as Lean
  lists of records, timestamps as natural-number logical clocks, and the
  Telegram transport as an explicit oracle giving the outcome of each call.
-/

set_option maxRecDepth 20000

namespace IxbrBot

/-! ## Text primitives (models of the Python `str` operations used by the bot) -/

/-- Model of Python `str.lower()` (ASCII case folding, which is all the bot's
keyword and error tables need). -/
def lowerStr (s : String) : String := ⟨s.data.map Char.toLower⟩

/-- Helper for substring containment: does `pat` occur contiguously in `l`? -/
def containsAux (pat : List Char) : List Char → Bool
  | [] => pat.isEmpty
  | c :: rest => pat.isPrefixOf (c :: rest) || containsAux pat rest

/-- Model of the Python membership test `pat in s` on strings. -/
def containsSub (s pat : String) : Bool := containsAux pat.data s.data

/-- Index of the first occurrence of `sep` in a character list, if any. -/
def firstOccurAux (sep : List Char) : List Char → Option Nat
  | [] => none
  | c :: rest =>
    if sep.isPrefixOf (c :: rest) then some 0
    else (firstOccurAux sep rest).map (· + 1)

/-- Fuelled splitting worker; the fuel `s.data.length` always suffices because a
nonempty separator consumes at least one character per round. -/
def splitFuel (sep : List Char) : Nat → List Char → List (List Char)
  | 0, l => [l]
  | fuel + 1, l =>
    match firstOccurAux sep l with
    | none => [l]
    | some i => l.take i :: splitFuel sep fuel (l.drop (i + sep.length))

/-- Model of Python `s.split(sep)` for a nonempty separator (the bot never
splits on an empty separator). -/
def splitStr (s sep : String) : List String :=
  if sep.data.isEmpty then [s]
  else (splitFuel sep.data s.data.length s.data).map (fun l => ⟨l⟩)

/-- Model of Python `s.strip()`. -/
def trimStr (s : String) : String :=
  ⟨(((s.data.dropWhile Char.isWhitespace).reverse).dropWhile Char.isWhitespace).reverse⟩

/-- Model of Python `int(s)` on plain digit strings; `none` models the
`ValueError` raised on anything else. -/
def digitsToNat (s : String) : Option Nat :=
  if s.data.isEmpty then none
  else if s.data.all Char.isDigit then
    some (s.data.foldl (fun n c => n * 10 + (c.toNat - 48)) 0)
  else none

/-- Python truthiness of an `Optional[str]`: `None` and `""` are falsy. -/
def optFalsy : Option String → Bool
  | none => true
  | some s => s.data.isEmpty

/-! ## Quiet hours (src/bot.py lines 32-38 and 162-200) -/

/-- The `TIMEZONES` table (src/bot.py lines 32-38): fixed UTC offsets in hours. -/
def TIMEZONES : List (String × Int) :=
  [(("UTC"), 0), (("BRT"), -3), (("AMT"), -4), (("ACT"), -5), (("FNT"), -2)]

/-- Python `TIMEZONES.get(quiet_tz or "UTC", 0)` (src/bot.py line 183): `None`
or empty timezone falls back to `"UTC"`, and an unknown name yields offset 0. -/
def tzOffsetOf (quiet_tz : Option String) : Int :=
  let tzName := match quiet_tz with
    | none => ("UTC")
    | some s => if s.data.isEmpty then ("UTC") else s
  match TIMEZONES.find? (fun p => p.1 == tzName) with
  | some p => p.2
  | none => 0

/-- Parse of `"HH:MM"` into seconds since midnight, modelling
`time(int(parts[0]), int(parts[1]))` on `quiet_start.split(":")`
(src/bot.py lines 190-194); `none` models the exception Python raises on
missing parts, non-digits, or an out-of-range hour/minute. -/
def parseTimeHM (s : String) : Option Nat :=
  match splitStr s (":") with
  | p0 :: p1 :: _ =>
    match digitsToNat p0, digitsToNat p1 with
    | some h, some m => if h < 24 && m < 60 then some (h * 3600 + m * 60) else none
    | _, _ => none
  | _ => none

/-- Window-membership comparison of src/bot.py lines 196-200, on seconds since
midnight.  The `none` branches model the exception path for unparseable
times, which no claim exercises. -/
def quietCompare : Option Nat → Option Nat → Int → Bool
  | some s, some e, now =>
    if (s : Int) > (e : Int) then decide ((s : Int) ≤ now) || decide (now ≤ (e : Int))
    else decide ((s : Int) ≤ now) && decide (now ≤ (e : Int))
  | _, _, _ => false

/-- Model of `IXBRBot._is_quiet_hours` (src/bot.py lines 162-200).  Time is
modelled at second granularity: `nowUtcSec` is the current UTC clock in
seconds, and the shifted time-of-day is `(nowUtcSec + offset·3600) mod 86400`,
matching `(now_utc + timedelta(hours=tz_offset)).time()`. -/
def is_quiet_hours (quiet_start quiet_end quiet_tz : Option String)
    (nowUtcSec : Int) : Bool :=
  if optFalsy quiet_start || optFalsy quiet_end then false
  else
    quietCompare (parseTimeHM (quiet_start.getD (""))) (parseTimeHM (quiet_end.getD ("")))
      ((nowUtcSec + tzOffsetOf quiet_tz * 3600) % 86400)

/-! ## Ledger store (src/database.py) -/

/-- Row of the `sent_messages` table (src/database.py lines 55-68), the
DeliveryRecord of the spec.  `sent_at`/`updated_at` are logical timestamps. -/
structure SentRecord where
  message_guid : String
  chat_id : Int
  telegram_message_id : Option Int
  content_hash : String
  message_title : Option String
  sent_at : Nat
  updated_at : Option Nat
  delivery_status : String
deriving DecidableEq

/-- Row of the `pending_notifications` table (src/database.py lines 81-91). -/
structure PendingRecord where
  chat_id : Int
  message_guid : String
  message_text : String
  event_title : Option String
  created_at : Nat
deriving DecidableEq

/-- One entry of `Database.get_active_chats()` (src/database.py lines 226-235):
the per-cycle recipient snapshot. -/
structure ChatInfo where
  chat_id : Int
  quiet_hours_start : Option String
  quiet_hours_end : Option String
  quiet_hours_tz : Option String
deriving DecidableEq

/-- The database state the pipeline touches: the `sent_messages` table, the
`pending_notifications` table, and the set of active chat ids of
`subscribed_chats` (rows with `is_active = 1`). -/
structure DbState where
  sent : List SentRecord
  pending : List PendingRecord
  active : List Int
deriving DecidableEq

/-- The `UNIQUE(message_guid, chat_id)` key test on a `sent_messages` row. -/
def sentKeyMatch (guid : String) (chat : Int) (r : SentRecord) : Bool :=
  r.message_guid == guid && r.chat_id == chat

/-- Model of `Database.get_sent_message` (src/database.py lines 282-300):
SELECT the row with the given `(message_guid, chat_id)` key. -/
def get_sent_message (st : DbState) (guid : String) (chat : Int) : Option SentRecord :=
  st.sent.find? (sentKeyMatch guid chat)

/-- Model of `Database.mark_message_sent` (src/database.py lines 302-323):
`INSERT OR REPLACE` keyed on `UNIQUE(message_guid, chat_id)`.  The replaced
row is dropped; `updated_at` is not in the column list, so the fresh row has
it NULL; `sent_at` is set to the current timestamp. -/
def mark_message_sent (st : DbState) (guid : String) (chat : Int) (msgId : Int)
    (hash : String) (title : Option String) (status : String) (now : Nat) : DbState :=
  { st with sent := (st.sent.filter (fun r => !(sentKeyMatch guid chat r))) ++
      [{ message_guid := guid, chat_id := chat, telegram_message_id := some msgId,
         content_hash := hash, message_title := title, sent_at := now,
         updated_at := none, delivery_status := status }] }

/-- Model of `Database.update_message_record` (src/database.py lines 325-341):
UPDATE `content_hash`, `message_title` and `updated_at` of the keyed row. -/
def update_message_record (st : DbState) (guid : String) (chat : Int)
    (hash : String) (title : Option String) (now : Nat) : DbState :=
  { st with sent := st.sent.map (fun r =>
      if sentKeyMatch guid chat r then
        { r with content_hash := hash, message_title := title, updated_at := some now }
      else r) }

/-- Model of `Database.unsubscribe_chat` (src/database.py lines 210-224):
UPDATE `subscribed_chats SET is_active = 0` for the chat. -/
def unsubscribe_chat (st : DbState) (chat : Int) : DbState :=
  { st with active := st.active.filter (fun c => !(c == chat)) }

/-- Model of `Database.add_pending_notification` (src/database.py lines 423-440):
`INSERT OR IGNORE` keyed on `UNIQUE(message_guid, chat_id)`. -/
def add_pending_notification (st : DbState) (chat : Int) (guid text : String)
    (title : Option String) (now : Nat) : DbState :=
  if st.pending.any (fun p => p.message_guid == guid && p.chat_id == chat) then st
  else { st with pending := st.pending ++
      [{ chat_id := chat, message_guid := guid, message_text := text,
         event_title := title, created_at := now }] }

/-- Model of `Database.get_pending_notifications` (src/database.py lines 442-457):
SELECT the chat's rows ORDER BY `created_at` ASC (a stable sort). -/
def get_pending_notifications (st : DbState) (chat : Int) : List PendingRecord :=
  List.insertionSort (fun a b => a.created_at ≤ b.created_at)
    (st.pending.filter (fun p => p.chat_id == chat))

/-- Model of `Database.clear_pending_notifications` (src/database.py lines 459-467):
DELETE the chat's rows. -/
def clear_pending_notifications (st : DbState) (chat : Int) : DbState :=
  { st with pending := st.pending.filter (fun p => !(p.chat_id == chat)) }

/-- Model of `Database.cleanup_old_messages` (src/database.py lines 363-380):
DELETE `sent_messages` rows with `sent_at` before the cutoff. -/
def cleanup_old_messages (st : DbState) (cutoff : Nat) : DbState :=
  { st with sent := st.sent.filter (fun r => decide (cutoff ≤ r.sent_at)) }

/-! ## Transport model -/

/-- One outbound Telegram call made by the pipeline. -/
inductive Action where
  | send (chat : Int) (text : String)
  | edit (chat : Int) (messageId : Int) (text : String)
deriving DecidableEq

/-- Outcome of one `bot.send_message` call: the new message id on success, or
the text of the `TelegramError` raised. -/
inductive SendOutcome where
  | ok (messageId : Int)
  | err (e : String)
deriving DecidableEq

/-- Outcome of one `bot.edit_message_text` call. -/
inductive EditOutcome where
  | ok
  | err (e : String)
deriving DecidableEq

/-! ## Delivery reconciler (src/bot.py lines 974-1109) -/

/-- The data of a `StatusEvent` as consumed by `_send_event_to_chats`: the guid
and title together with the two values precomputed at src/bot.py lines
980-981 (`message_text = event.to_telegram_message()` and
`current_hash = event.get_content_hash()`). -/
structure EventMsg where
  guid : String
  title : String
  message_text : String
  content_hash : String
deriving DecidableEq

/-- Result of `_send_message`: the new database state, the transport calls
made, and the boolean the Python function returns. -/
structure SendResult where
  state : DbState
  actions : List Action
  ok : Bool
deriving DecidableEq

/-- The `permanent_errors` substring table of `_send_message`
(src/bot.py lines 1089-1092). -/
def permanent_errors : List String :=
  [("blocked"), ("deactivated"), ("not found"), (("chat not found")), ("kicked"), ("forbidden")]

/-- Model of `IXBRBot._send_message` (src/bot.py lines 1051-1109): send the
message; on success record the delivery; on a `TelegramError` whose lowercased
text contains a permanent-error substring, unsubscribe the chat; on any other
error leave all state untouched. -/
def send_message (st : DbState) (chat : Int) (ev : EventMsg)
    (outcome : SendOutcome) (now : Nat) : SendResult :=
  match outcome with
  | .ok msgId =>
    { state := mark_message_sent st ev.guid chat msgId ev.content_hash
        (some ev.title) ("sent") now,
      actions := [.send chat ev.message_text], ok := true }
  | .err e =>
    let error_str := lowerStr e
    if permanent_errors.any (fun x => containsSub error_str x) then
      { state := unsubscribe_chat st chat,
        actions := [.send chat ev.message_text], ok := false }
    else
      { state := st, actions := [.send chat ev.message_text], ok := false }

/-- The edited text sent by the update path (src/bot.py line 1016). -/
def updatedText (message_text : String) : String :=
  message_text ++ ("\n\n<i>[Mensagem atualizada]</i>")

/-- Per-chat body of `IXBRBot._send_event_to_chats` (src/bot.py lines 983-1049):
defer when quiet; else skip on unchanged hash; else edit when the stored
`telegram_message_id` is truthy (non-null and nonzero), falling through to a
fresh send on edit failure; else send. -/
def send_event_to_chat (ev : EventMsg) (ci : ChatInfo) (st : DbState)
    (editOutcome : EditOutcome) (sendOutcome : SendOutcome)
    (now : Nat) (nowUtcSec : Int) : DbState × List Action :=
  if is_quiet_hours ci.quiet_hours_start ci.quiet_hours_end ci.quiet_hours_tz nowUtcSec then
    (add_pending_notification st ci.chat_id ev.guid ev.message_text (some ev.title) now, [])
  else
    match get_sent_message st ev.guid ci.chat_id with
    | some existing =>
      if existing.content_hash == ev.content_hash then (st, [])
      else
        match existing.telegram_message_id with
        | some mid =>
          if mid != 0 then
            match editOutcome with
            | .ok =>
              (update_message_record st ev.guid ci.chat_id ev.content_hash (some ev.title) now,
               [.edit ci.chat_id mid (updatedText ev.message_text)])
            | .err _ =>
              let r := send_message st ci.chat_id ev sendOutcome now
              (r.state, .edit ci.chat_id mid (updatedText ev.message_text) :: r.actions)
          else
            let r := send_message st ci.chat_id ev sendOutcome now
            (r.state, r.actions)
        | none =>
          let r := send_message st ci.chat_id ev sendOutcome now
          (r.state, r.actions)
    | none =>
      let r := send_message st ci.chat_id ev sendOutcome now
      (r.state, r.actions)

/-- Model of `IXBRBot._send_event_to_chats` over the whole recipient snapshot;
`editO`/`sendO` give the transport outcome per chat id. -/
def send_event_to_chats (ev : EventMsg) (chats : List ChatInfo)
    (editO : Int → EditOutcome) (sendO : Int → SendOutcome)
    (st : DbState) (now : Nat) (nowUtcSec : Int) : DbState × List Action :=
  chats.foldl (fun acc ci =>
    let r := send_event_to_chat ev ci acc.1 (editO ci.chat_id) (sendO ci.chat_id) now nowUtcSec
    (r.1, acc.2 ++ r.2)) (st, [])

/-! ## Quiet-window gate (src/bot.py lines 1111-1195) -/

/-- One title line of the flush summary (src/bot.py lines 1155-1159): a falsy
title becomes `"Evento"`, and titles longer than 50 characters are cut at 50
with an ellipsis. -/
def summaryTitle (p : PendingRecord) : String :=
  let title := match p.event_title with
    | none => ("Evento")
    | some t => if t.data.isEmpty then ("Evento") else t
  if 50 < title.data.length then (⟨title.data.take 50⟩ : String) ++ ("...") else title

/-- The bulleted title lines of the flush summary: at most the first 5 pending
items are listed (src/bot.py line 1155). -/
def summaryTitleLines (pending : List PendingRecord) : List String :=
  (pending.take 5).map (fun p => ("- ") ++ summaryTitle p ++ ("\n"))

/-- The `"... e mais N eventos."` trailer, present only when more than 5 items
are pending (src/bot.py lines 1161-1162). -/
def summaryMoreLine (pending : List PendingRecord) : String :=
  if 5 < pending.length then
    ("\n... e mais ") ++ toString (pending.length - 5) ++ (" eventos.")
  else ("")

/-- The full summary message for a multi-item flush (src/bot.py lines
1151-1164), assembled in the same order as the Python `+=` chain. -/
def summaryText (pending : List PendingRecord) : String :=
  ("<b>Resumo: ") ++ toString pending.length ++ (" notificacoes durante silencio</b>\n\n")
    ++ String.join (summaryTitleLines pending)
    ++ summaryMoreLine pending
    ++ ("\n\nVeja detalhes em https://status.ix.br")

/-- Per-chat body of `IXBRBot._process_pending_notifications` (src/bot.py lines
1116-1195): skip chats still quiet; send a single pending item directly and
record it with fingerprint `"pending_delivered"`; send a summary for several
items and record each with message id 0 and fingerprint `"pending_summary"`;
on transport failure leave all state untouched, else clear the chat's queue. -/
def process_pending_chat (ci : ChatInfo) (st : DbState) (flushOutcome : SendOutcome)
    (now : Nat) (nowUtcSec : Int) : DbState × List Action :=
  if is_quiet_hours ci.quiet_hours_start ci.quiet_hours_end ci.quiet_hours_tz nowUtcSec then
    (st, [])
  else
    match get_pending_notifications st ci.chat_id with
    | [] => (st, [])
    | [p] =>
      match flushOutcome with
      | .ok msgId =>
        let st1 := mark_message_sent st p.message_guid ci.chat_id msgId
          ("pending_delivered") p.event_title ("sent") now
        (clear_pending_notifications st1 ci.chat_id, [.send ci.chat_id p.message_text])
      | .err _ => (st, [.send ci.chat_id p.message_text])
    | p :: q :: rest =>
      let pending := p :: q :: rest
      match flushOutcome with
      | .ok _ =>
        let st1 := pending.foldl (fun s pp =>
          mark_message_sent s pp.message_guid ci.chat_id 0 ("pending_summary")
            pp.event_title ("sent") now) st
        (clear_pending_notifications st1 ci.chat_id, [.send ci.chat_id (summaryText pending)])
      | .err _ => (st, [.send ci.chat_id (summaryText pending)])

/-- Model of `IXBRBot._process_pending_notifications` over the whole recipient
snapshot; `flushO` gives the transport outcome of the chat's flush send. -/
def process_pending_all (chats : List ChatInfo) (flushO : Int → SendOutcome)
    (st : DbState) (now : Nat) (nowUtcSec : Int) : DbState × List Action :=
  chats.foldl (fun acc ci =>
    let r := process_pending_chat ci acc.1 (flushO ci.chat_id) now nowUtcSec
    (r.1, acc.2 ++ r.2)) (st, [])

/-- The per-event reconciliation loop of `check_rss_updates` (src/bot.py lines
958-959): every fetched event is reconciled against every chat of the
snapshot; `editO`/`sendO` give the transport outcome per event guid and chat. -/
def reconcile_events (events : List EventMsg) (chats : List ChatInfo)
    (editO : String → Int → EditOutcome) (sendO : String → Int → SendOutcome)
    (st : DbState) (now : Nat) (nowUtcSec : Int) : DbState × List Action :=
  events.foldl (fun acc ev =>
    let r := send_event_to_chats ev chats (editO ev.guid) (sendO ev.guid) acc.1 now nowUtcSec
    (r.1, acc.2 ++ r.2)) (st, [])

/-- Model of one cycle of `IXBRBot.check_rss_updates` (src/bot.py lines
938-966), taking the fetched events and the active-chat snapshot as inputs:
return early when the fetch produced no events or there is no active chat;
otherwise reconcile every event against every chat, then flush pending
notifications, then run the retention sweep. -/
def check_rss_updates (events : List EventMsg) (chats : List ChatInfo)
    (editO : String → Int → EditOutcome) (sendO : String → Int → SendOutcome)
    (flushO : Int → SendOutcome) (st : DbState) (now : Nat) (nowUtcSec : Int)
    (cleanupCutoff : Nat) : DbState × List Action :=
  if events.isEmpty then (st, [])
  else if chats.isEmpty then (st, [])
  else
    let r1 := reconcile_events events chats editO sendO st now nowUtcSec
    let r2 := process_pending_all chats flushO r1.1 now nowUtcSec
    (cleanup_old_messages r2.1 cleanupCutoff, r1.2 ++ r2.2)

/-! ## Feed fetcher (src/rss_monitor.py lines 124-260) -/

/-- The mutable retry/health fields of `RSSMonitor` (src/rss_monitor.py lines
136-137). -/
structure MonitorState where
  consecutive_failures : Nat
  last_successful_fetch : Option Int
deriving DecidableEq

/-- A feed entry after `_parse_entry`, restricted to the fields the fetch loop
itself inspects (the age filter reads `published`, in seconds). -/
structure FetchedEvent where
  guid : String
  title : String
  published : Int
deriving DecidableEq

/-- Outcome of one `_fetch_feed_async` attempt: the parse results of the feed's
entries (one `Option` per entry, `none` for an unparseable entry), or the
`RSSFetchError` raised. -/
inductive FetchOutcome where
  | ok (entries : List (Option FetchedEvent))
  | err (e : String)
deriving DecidableEq

/-- Result of `fetch_events`: the new monitor state, the returned (age-filtered)
events, the backoff sleeps performed in order, and how many fetch attempts
were made. -/
structure FetchResult where
  state : MonitorState
  events : List FetchedEvent
  waits : List Nat
  attemptsMade : Nat
deriving DecidableEq

/-- The `for attempt in range(3)` retry loop of `RSSMonitor.fetch_events`
(src/rss_monitor.py lines 204-260).  `remaining` counts the attempts left,
`attemptsDone` is the Python `attempt` index, and `waits` accumulates the
performed sleeps in reverse.  On success the failure counter resets and the
last-success timestamp is recorded; the parsed entries are filtered by the age
cutoff.  After the last failure no sleep happens, the failure counter is
incremented once, and the empty list is returned. -/
def fetch_events_loop (outcome : Nat → FetchOutcome) (st : MonitorState)
    (cutoff now : Int) : Nat → Nat → List Nat → FetchResult
  | 0, attemptsDone, waits =>
    { state := { st with consecutive_failures := st.consecutive_failures + 1 },
      events := [], waits := waits.reverse, attemptsMade := attemptsDone }
  | remaining + 1, attemptsDone, waits =>
    match outcome attemptsDone with
    | .ok entries =>
      { state := { consecutive_failures := 0, last_successful_fetch := some now },
        events := (entries.filterMap id).filter (fun ev => decide (cutoff ≤ ev.published)),
        waits := waits.reverse, attemptsMade := attemptsDone + 1 }
    | .err _ =>
      let wait_time := 4 * 2 ^ attemptsDone
      let waits1 := if attemptsDone < 2 then wait_time :: waits else waits
      fetch_events_loop outcome st cutoff now remaining (attemptsDone + 1) waits1

/-- Model of `RSSMonitor.fetch_events` (src/rss_monitor.py lines 192-260):
three attempts, age cutoff `now - max_age_days` (in seconds). -/
def fetch_events (outcome : Nat → FetchOutcome) (st : MonitorState)
    (now maxAgeDays : Int) : FetchResult :=
  fetch_events_loop outcome st (now - maxAgeDays * 86400) now 3 0 []

/-! ## Event classifier (src/rss_monitor.py lines 30-35 and 366-410) -/

/-- Event kinds (src/rss_monitor.py lines 30-35). -/
inductive EventType where
  | maintenance
  | incident
  | resolved
  | unknown
deriving DecidableEq

/-- The `resolved_keywords` table (src/rss_monitor.py lines 374-377). -/
def resolved_keywords : List String :=
  [("resolvid"), ("solved"), ("restored"), ("restabelecid"), ("normalizado"), ("normalized")]

/-- The `maintenance_keywords` table (src/rss_monitor.py lines 383-386). -/
def maintenance_keywords : List String :=
  [("manutencao"), ("maintenance"), ("janela"), ("window"), ("programad"), ("scheduled")]

/-- The `incident_keywords` table (src/rss_monitor.py lines 390-394). -/
def incident_keywords : List String :=
  [("indisponibilidade"), ("unavailability"), ("problema"), ("problem"),
   ("incident"), ("incidente"), ("falha"), ("failure"), ("rompimento"), ("disruption")]

/-- Model of `RSSMonitor._classify_event` (src/rss_monitor.py lines 366-398):
an ordered cascade over the lowercased `title + " " + description`. -/
def classify_event (title description : String) : EventType × Bool :=
  let text := lowerStr (title ++ (" ") ++ description)
  if resolved_keywords.any (fun kw => containsSub text kw) then (.resolved, true)
  else if maintenance_keywords.any (fun kw => containsSub text kw) then (.maintenance, false)
  else if incident_keywords.any (fun kw => containsSub text kw) then (.incident, false)
  else (.unknown, false)

/-- Model of `RSSMonitor._extract_location` (src/rss_monitor.py lines 400-410):
the text after the `"IX.br"` marker, truncated at the first of three dash-like
separators (applied in sequence), stripped; empty result gives `none`. -/
def extract_location (title : String) : Option String :=
  if containsSub title ("IX.br") then
    match splitStr title ("IX.br") with
    | _ :: p1 :: _ =>
      let location := trimStr p1
      let location := [(" - "), (" – "), (" — ")].foldl (fun loc sep =>
        if containsSub loc sep then trimStr ((splitStr loc sep).headD ("")) else loc) location
      if location.data.isEmpty then none else some location
    | _ => none
  else none

/-! ## Helper lemmas -/

theorem tzOffsetOf_not_in_table (name : String)
    (h1 : name ≠ ("UTC")) (h2 : name ≠ ("BRT")) (h3 : name ≠ ("AMT"))
    (h4 : name ≠ ("ACT")) (h5 : name ≠ ("FNT")) :
    tzOffsetOf (some name) = 0 := by
  unfold tzOffsetOf
  have e1 : (("UTC") == name) = false := beq_eq_false_iff_ne.mpr (Ne.symm h1)
  have e2 : (("BRT") == name) = false := beq_eq_false_iff_ne.mpr (Ne.symm h2)
  have e3 : (("AMT") == name) = false := beq_eq_false_iff_ne.mpr (Ne.symm h3)
  have e4 : (("ACT") == name) = false := beq_eq_false_iff_ne.mpr (Ne.symm h4)
  have e5 : (("FNT") == name) = false := beq_eq_false_iff_ne.mpr (Ne.symm h5)
  cases hemp : name.data.isEmpty <;>
    simp [hemp, TIMEZONES, List.find?, e1, e2, e3, e4, e5]

theorem is_quiet_hours_tz_congr (qs qe t1 t2 : Option String) (nu : Int)
    (h : tzOffsetOf t1 = tzOffsetOf t2) :
    is_quiet_hours qs qe t1 nu = is_quiet_hours qs qe t2 nu := by
  unfold is_quiet_hours
  rw [h]

/-! ## Claim C4: quiet-window predicate -/

/-- C4: the quiet-window predicate returns false whenever start or end is
missing (Python-falsy); otherwise, with `now` the current UTC time shifted by
the named timezone's fixed offset (reduced modulo one day), it returns
`now ≥ start ∨ now ≤ end` when `start > end` (the window wraps midnight) and
`start ≤ now ≤ end` otherwise; in particular for start 22:00, end 07:00 in UTC
it is true at 23:30 and false at 12:00, and for start 07:00, end 22:00 it is
true at 12:00. -/
theorem quiet_window_correctness :
    (∀ (qs qe qtz : Option String) (nu : Int),
      (optFalsy qs || optFalsy qe) = true → is_quiet_hours qs qe qtz nu = false) ∧
    (∀ (qs qe qtz : Option String) (nu : Int) (s e : Nat),
      (optFalsy qs || optFalsy qe) = false →
      parseTimeHM (qs.getD ("")) = some s →
      parseTimeHM (qe.getD ("")) = some e →
      is_quiet_hours qs qe qtz nu =
        (if (s : Int) > (e : Int) then
          decide ((s : Int) ≤ (nu + tzOffsetOf qtz * 3600) % 86400) ||
            decide ((nu + tzOffsetOf qtz * 3600) % 86400 ≤ (e : Int))
        else
          decide ((s : Int) ≤ (nu + tzOffsetOf qtz * 3600) % 86400) &&
            decide ((nu + tzOffsetOf qtz * 3600) % 86400 ≤ (e : Int)))) ∧
    is_quiet_hours (some ("22:00")) (some ("07:00")) (some ("UTC")) 84600 = true ∧
    is_quiet_hours (some ("22:00")) (some ("07:00")) (some ("UTC")) 43200 = false ∧
    is_quiet_hours (some ("07:00")) (some ("22:00")) (some ("UTC")) 43200 = true := by
  refine ⟨?_, ?_, by decide, by decide, by decide⟩
  · intro qs qe qtz nu h
    simp [is_quiet_hours, h]
  · intro qs qe qtz nu s e h hs he
    simp [is_quiet_hours, h, hs, he, quietCompare]

/-- Witness for C4 at concrete inputs. -/
theorem quiet_window_correctness_witness :
    is_quiet_hours none (some ("07:00")) none 0 = false ∧
    parseTimeHM ("22:00") = some 79200 ∧
    is_quiet_hours (some ("22:00")) (some ("07:00")) (some ("UTC")) 84600 = true := by
  refine ⟨quiet_window_correctness.1 none (some ("07:00")) none 0 (by decide), by decide, ?_⟩
  have hb := quiet_window_correctness.2.1 (some ("22:00")) (some ("07:00")) (some ("UTC"))
    84600 79200 25200 (by decide) (by decide) (by decide)
  rw [hb]
  decide

/-! ## Claim C10: unknown timezone names fall back to offset 0 -/

/-- C10: a configured timezone name outside the closed table
{UTC, BRT, AMT, ACT, FNT} (or a missing timezone) is silently treated as
offset 0: the predicate never fails on an unknown name, and its result equals
the result for UTC at the same instant. -/
theorem unknown_timezone_utc :
    ∀ (qs qe : Option String) (name : String) (nu : Int),
      optFalsy qs = false → optFalsy qe = false →
      name ≠ ("UTC") → name ≠ ("BRT") → name ≠ ("AMT") →
      name ≠ ("ACT") → name ≠ ("FNT") →
      is_quiet_hours qs qe (some name) nu = is_quiet_hours qs qe (some ("UTC")) nu ∧
      is_quiet_hours qs qe none nu = is_quiet_hours qs qe (some ("UTC")) nu := by
  intro qs qe name nu hs he h1 h2 h3 h4 h5
  have hn : tzOffsetOf (some name) = 0 := tzOffsetOf_not_in_table name h1 h2 h3 h4 h5
  have hu : tzOffsetOf (some ("UTC")) = 0 := by decide
  have h0 : tzOffsetOf none = 0 := by decide
  exact ⟨is_quiet_hours_tz_congr _ _ _ _ _ (hn.trans hu.symm),
    is_quiet_hours_tz_congr _ _ _ _ _ (h0.trans hu.symm)⟩

/-- Witness for C10 at a concrete unknown timezone name. -/
theorem unknown_timezone_utc_witness :
    is_quiet_hours (some ("22:00")) (some ("07:00")) (some ("America/Sao_Paulo")) 84600 =
      is_quiet_hours (some ("22:00")) (some ("07:00")) (some ("UTC")) 84600 ∧
    is_quiet_hours (some ("22:00")) (some ("07:00")) none 84600 =
      is_quiet_hours (some ("22:00")) (some ("07:00")) (some ("UTC")) 84600 :=
  unknown_timezone_utc (some ("22:00")) (some ("07:00")) ("America/Sao_Paulo") 84600
    (by decide) (by decide) (by decide) (by decide) (by decide) (by decide) (by decide)

/-! ## Claim C9: classification cascade -/

/-- C9: classification is a strict ordered cascade over the lowercased
`title + " " + description`: any resolved keyword gives Resolved even when
maintenance or incident keywords also occur; else any maintenance keyword
gives Maintenance even when incident keywords occur; else any incident
keyword gives Incident; else Unknown.  The concrete Sao Paulo maintenance
scenario classifies as Maintenance with extracted location "Sao Paulo". -/
theorem classification_cascade :
    (∀ t d : String,
      resolved_keywords.any (fun kw => containsSub (lowerStr (t ++ (" ") ++ d)) kw) = true →
      classify_event t d = (.resolved, true)) ∧
    (∀ t d : String,
      resolved_keywords.any (fun kw => containsSub (lowerStr (t ++ (" ") ++ d)) kw) = false →
      maintenance_keywords.any (fun kw => containsSub (lowerStr (t ++ (" ") ++ d)) kw) = true →
      classify_event t d = (.maintenance, false)) ∧
    (∀ t d : String,
      resolved_keywords.any (fun kw => containsSub (lowerStr (t ++ (" ") ++ d)) kw) = false →
      maintenance_keywords.any (fun kw => containsSub (lowerStr (t ++ (" ") ++ d)) kw) = false →
      incident_keywords.any (fun kw => containsSub (lowerStr (t ++ (" ") ++ d)) kw) = true →
      classify_event t d = (.incident, false)) ∧
    (∀ t d : String,
      resolved_keywords.any (fun kw => containsSub (lowerStr (t ++ (" ") ++ d)) kw) = false →
      maintenance_keywords.any (fun kw => containsSub (lowerStr (t ++ (" ") ++ d)) kw) = false →
      incident_keywords.any (fun kw => containsSub (lowerStr (t ++ (" ") ++ d)) kw) = false →
      classify_event t d = (.unknown, false)) ∧
    classify_event ("IX.br Sao Paulo - Manutencao programada")
      ("janela de manutencao das 2h as 4h") = (.maintenance, false) ∧
    extract_location ("IX.br Sao Paulo - Manutencao programada") = some ("Sao Paulo") := by
  refine ⟨?_, ?_, ?_, ?_, by decide, by decide⟩
  · intro t d h
    simp [classify_event, h]
  · intro t d h1 h2
    simp [classify_event, h1, h2]
  · intro t d h1 h2 h3
    simp [classify_event, h1, h2, h3]
  · intro t d h1 h2 h3
    simp [classify_event, h1, h2, h3]

/-- Witness for C9: each cascade stage at a concrete input, including the
precedence of Resolved over Incident and of Maintenance over Incident. -/
theorem classification_cascade_witness :
    classify_event ("Problema resolvido no IX") ("") = (.resolved, true) ∧
    classify_event ("Manutencao programada com problema") ("") = (.maintenance, false) ∧
    classify_event ("Falha no enlace") ("") = (.incident, false) ∧
    classify_event ("Comunicado geral") ("") = (.unknown, false) :=
  ⟨classification_cascade.1 _ _ (by decide),
   classification_cascade.2.1 _ _ (by decide) (by decide),
   classification_cascade.2.2.1 _ _ (by decide) (by decide) (by decide),
   classification_cascade.2.2.2.1 _ _ (by decide) (by decide) (by decide)⟩

/-! ## Claim C8: fetch retry and backoff -/

/-- C8: `fetch_events` makes at most 3 attempts per cycle, sleeping
`4·2^attempt` seconds between consecutive attempts (4s after the first
failure, 8s after the second, none after the third); three failures yield an
empty event list (no exception) and increment the consecutive-failure counter
by exactly one, while a success at any attempt resets the counter to 0 and
records the last-success timestamp. -/
theorem fetch_retry_exhaustion :
    (∀ (o : Nat → FetchOutcome) (st : MonitorState) (now d : Int),
      (fetch_events o st now d).attemptsMade ≤ 3) ∧
    (∀ (o : Nat → FetchOutcome) (st : MonitorState) (now d : Int) (e0 e1 e2 : String),
      o 0 = .err e0 → o 1 = .err e1 → o 2 = .err e2 →
      fetch_events o st now d =
        { state := { st with consecutive_failures := st.consecutive_failures + 1 },
          events := [], waits := [4, 8], attemptsMade := 3 }) ∧
    (∀ (o : Nat → FetchOutcome) (st : MonitorState) (now d : Int)
        (entries : List (Option FetchedEvent)),
      o 0 = .ok entries →
      (fetch_events o st now d).state =
        { consecutive_failures := 0, last_successful_fetch := some now } ∧
      (fetch_events o st now d).waits = [] ∧
      (fetch_events o st now d).attemptsMade = 1) ∧
    (∀ (o : Nat → FetchOutcome) (st : MonitorState) (now d : Int) (e0 : String)
        (entries : List (Option FetchedEvent)),
      o 0 = .err e0 → o 1 = .ok entries →
      (fetch_events o st now d).state =
        { consecutive_failures := 0, last_successful_fetch := some now } ∧
      (fetch_events o st now d).waits = [4] ∧
      (fetch_events o st now d).attemptsMade = 2) ∧
    (∀ (o : Nat → FetchOutcome) (st : MonitorState) (now d : Int) (e0 e1 : String)
        (entries : List (Option FetchedEvent)),
      o 0 = .err e0 → o 1 = .err e1 → o 2 = .ok entries →
      (fetch_events o st now d).state =
        { consecutive_failures := 0, last_successful_fetch := some now } ∧
      (fetch_events o st now d).waits = [4, 8] ∧
      (fetch_events o st now d).attemptsMade = 3) := by
  refine ⟨?_, ?_, ?_, ?_, ?_⟩
  · intro o st now d
    rcases h0 : o 0 with entries0 | e0
    · simp [fetch_events, fetch_events_loop, h0]
    · rcases h1 : o 1 with entries1 | e1
      · simp [fetch_events, fetch_events_loop, h0, h1]
      · rcases h2 : o 2 with entries2 | e2 <;>
          simp [fetch_events, fetch_events_loop, h0, h1, h2]
  · intro o st now d e0 e1 e2 h0 h1 h2
    simp [fetch_events, fetch_events_loop, h0, h1, h2]
  · intro o st now d entries h0
    simp [fetch_events, fetch_events_loop, h0]
  · intro o st now d e0 entries h0 h1
    simp [fetch_events, fetch_events_loop, h0, h1]
  · intro o st now d e0 e1 entries h0 h1 h2
    simp [fetch_events, fetch_events_loop, h0, h1, h2]

/-- Witness for C8: three injected failures, and a first-attempt success. -/
theorem fetch_retry_exhaustion_witness :
    fetch_events (fun _ => .err ("boom")) ⟨0, none⟩ 0 0 =
      { state := { consecutive_failures := 1, last_successful_fetch := none },
        events := [], waits := [4, 8], attemptsMade := 3 } ∧
    (fetch_events (fun _ => .ok []) ⟨5, none⟩ 0 0).state =
      { consecutive_failures := 0, last_successful_fetch := some 0 } := by
  constructor
  · exact fetch_retry_exhaustion.2.1 (fun _ => .err ("boom")) ⟨0, none⟩ 0 0
      ("boom") ("boom") ("boom") rfl rfl rfl
  · exact (fetch_retry_exhaustion.2.2.1 (fun _ => .ok []) ⟨5, none⟩ 0 0 [] rfl).1

/-! ## Claim C6: permanent-failure pruning -/

theorem isPrefixOf_iff_append (l1 l2 : List Char) :
    l1.isPrefixOf l2 = true ↔ ∃ t, l1 ++ t = l2 := by
  induction l1 generalizing l2 with
  | nil => simp [List.isPrefixOf]
  | cons a as ih =>
    cases l2 with
    | nil => simp [List.isPrefixOf]
    | cons b bs =>
      simp only [List.isPrefixOf, Bool.and_eq_true, beq_iff_eq, ih, List.cons_append,
        List.cons.injEq]
      constructor
      · rintro ⟨hab, t, ht⟩
        exact ⟨t, hab, ht⟩
      · rintro ⟨t, hab, ht⟩
        exact ⟨hab, t, ht⟩

theorem containsAux_iff (pat l : List Char) :
    containsAux pat l = true ↔ ∃ l1 l2, l1 ++ pat ++ l2 = l := by
  induction l with
  | nil =>
    simp only [containsAux, List.isEmpty_iff]
    constructor
    · intro h
      exact ⟨[], [], by simp [h]⟩
    · rintro ⟨l1, l2, h⟩
      rcases List.append_eq_nil.1 h with ⟨h12, -⟩
      exact (List.append_eq_nil.1 h12).2
  | cons c rest ih =>
    simp only [containsAux, Bool.or_eq_true, isPrefixOf_iff_append, ih]
    constructor
    · rintro (⟨t, ht⟩ | ⟨l1, l2, h⟩)
      · exact ⟨[], t, by simp [ht]⟩
      · exact ⟨c :: l1, l2, by simp [h]⟩
    · rintro ⟨l1, l2, h⟩
      cases l1 with
      | nil =>
        exact Or.inl ⟨l2, by simpa using h⟩
      | cons x xs =>
        rcases List.cons.inj h with ⟨-, hrest⟩
        exact Or.inr ⟨xs, l2, hrest⟩

/-- Containment of `"chat not found"` implies containment of `"not found"`:
the sixth entry of the code's `permanent_errors` table is subsumed by the
third, which is why the claim's five-substring set is equivalent. -/
theorem containsSub_chat_not_found (s : String) :
    containsSub s (("chat not found")) = true → containsSub s (("not found")) = true := by
  intro h
  obtain ⟨l1, l2, hl⟩ := (containsAux_iff _ _).1 h
  apply (containsAux_iff _ _).2
  refine ⟨l1 ++ (("chat ") : String).data, l2, ?_⟩
  have hdec : (("chat not found") : String).data =
      (("chat ") : String).data ++ (("not found") : String).data := by decide
  rw [← hl, hdec]
  simp

/-- The claim's five permanent-error substrings (the code's table additionally
lists `"chat not found"`, which is subsumed by `"not found"`). -/
def claim_permanent_errors : List String :=
  [("blocked"), ("deactivated"), ("not found"), ("kicked"), ("forbidden")]

theorem permanent_any_eq (s : String) :
    permanent_errors.any (fun x => containsSub s x) =
      claim_permanent_errors.any (fun x => containsSub s x) := by
  simp only [permanent_errors, claim_permanent_errors, List.any_cons, List.any_nil]
  by_cases h : containsSub s (("chat not found")) = true
  · have h2 := containsSub_chat_not_found s h
    simp [h, h2]
  · rw [Bool.not_eq_true] at h
    simp [h]

/-- C6: on a transport error whose text contains one of the substrings
blocked, deactivated, not found, kicked, forbidden (matched on the lowercased
error), `_send_message` unsubscribes exactly that chat and writes no
DeliveryRecord; on any other transport error no state is mutated at all. -/
theorem permanent_failure_pruning :
    ∀ (st : DbState) (chat : Int) (ev : EventMsg) (e : String) (now : Nat),
      (claim_permanent_errors.any (fun x => containsSub (lowerStr e) x) = true →
        send_message st chat ev (.err e) now =
          { state := { sent := st.sent, pending := st.pending,
                       active := st.active.filter (fun c => !(c == chat)) },
            actions := [.send chat ev.message_text], ok := false }) ∧
      (claim_permanent_errors.any (fun x => containsSub (lowerStr e) x) = false →
        send_message st chat ev (.err e) now =
          { state := st, actions := [.send chat ev.message_text], ok := false }) := by
  intro st chat ev e now
  constructor
  · intro h
    rw [← permanent_any_eq] at h
    simp [send_message, h, unsubscribe_chat]
  · intro h
    rw [← permanent_any_eq] at h
    simp [send_message, h]

/-- Witness for C6: a blocked-style error unsubscribes the chat and writes
nothing; a timeout-style error leaves the state untouched. -/
theorem permanent_failure_pruning_witness :
    send_message ⟨[], [], [1, 2]⟩ 1 ⟨("g"), ("T"), ("body"), ("h")⟩
        (.err ("Forbidden: bot was blocked by the user")) 0 =
      { state := ⟨[], [], [2]⟩, actions := [.send 1 ("body")], ok := false } ∧
    send_message ⟨[], [], [1, 2]⟩ 1 ⟨("g"), ("T"), ("body"), ("h")⟩
        (.err ("Timed out")) 0 =
      { state := ⟨[], [], [1, 2]⟩, actions := [.send 1 ("body")], ok := false } := by
  constructor
  · have h := (permanent_failure_pruning ⟨[], [], [1, 2]⟩ 1 ⟨("g"), ("T"), ("body"), ("h")⟩
      ("Forbidden: bot was blocked by the user") 0).1 (by decide)
    rw [h]
    decide
  · have h := (permanent_failure_pruning ⟨[], [], [1, 2]⟩ 1 ⟨("g"), ("T"), ("body"), ("h")⟩
      ("Timed out") 0).2 (by decide)
    rw [h]

/-! ## Claim C7: flush failure keeps the queue, success clears it -/

theorem pending_filter_filter (l : List PendingRecord) (c : Int) :
    (l.filter (fun p => !(p.chat_id == c))).filter (fun p => p.chat_id == c) = [] := by
  rw [List.filter_filter]
  simp

theorem get_pending_after_clear (st : DbState) (chat : Int) :
    get_pending_notifications (clear_pending_notifications st chat) chat = [] := by
  simp [get_pending_notifications, clear_pending_notifications, pending_filter_filter,
    List.insertionSort]

theorem pending_of_mark (st : DbState) (g : String) (c : Int) (m : Int)
    (h : String) (t : Option String) (s : String) (now : Nat) :
    (mark_message_sent st g c m h t s now).pending = st.pending := rfl

theorem pending_of_foldl_marks (ps : List PendingRecord) (st : DbState)
    (c : Int) (now : Nat) :
    (ps.foldl (fun s pp =>
      mark_message_sent s pp.message_guid c 0 ("pending_summary")
        pp.event_title ("sent") now) st).pending = st.pending := by
  induction ps generalizing st with
  | nil => rfl
  | cons p rest ih => simpa using ih (mark_message_sent st p.message_guid c 0
      ("pending_summary") p.event_title ("sent") now)

/-- C7: if the transport send fails while flushing a chat's pending
notifications, the whole database state — in particular that chat's pending
queue — is left unchanged, so the batch is retried on a later cycle; if the
flush send succeeds the chat's entire pending queue is cleared in one
operation. -/
theorem flush_failure_retry :
    ∀ (ci : ChatInfo) (st : DbState) (now : Nat) (nu : Int) (e : String) (msgId : Int),
      is_quiet_hours ci.quiet_hours_start ci.quiet_hours_end ci.quiet_hours_tz nu = false →
      get_pending_notifications st ci.chat_id ≠ [] →
      (process_pending_chat ci st (.err e) now nu).1 = st ∧
      (process_pending_chat ci st (.ok msgId) now nu).1.pending =
        st.pending.filter (fun p => !(p.chat_id == ci.chat_id)) ∧
      get_pending_notifications (process_pending_chat ci st (.ok msgId) now nu).1
        ci.chat_id = [] := by
  intro ci st now nu e msgId hq hne
  rcases hp : get_pending_notifications st ci.chat_id with _ | ⟨p, rest⟩
  · exact absurd hp hne
  · cases rest with
    | nil =>
      refine ⟨?_, ?_, ?_⟩
      · simp [process_pending_chat, hq, hp]
      · simp [process_pending_chat, hq, hp, clear_pending_notifications, pending_of_mark]
      · simp only [process_pending_chat, hq, hp]
        simp only [Bool.false_eq_true, if_false]
        exact get_pending_after_clear _ ci.chat_id
    | cons q rest' =>
      refine ⟨?_, ?_, ?_⟩
      · simp [process_pending_chat, hq, hp]
      · simp [process_pending_chat, hq, hp, clear_pending_notifications,
          pending_of_foldl_marks, pending_of_mark]
      · simp only [process_pending_chat, hq, hp]
        simp only [Bool.false_eq_true, if_false]
        exact get_pending_after_clear _ ci.chat_id

/-- Witness for C7: one pending notification for chat 1; a failed flush leaves
the state unchanged, a successful flush empties the queue. -/
theorem flush_failure_retry_witness :
    (process_pending_chat ⟨1, none, none, none⟩
        ⟨[], [⟨1, ("g"), ("text"), some ("T"), 0⟩], [1]⟩ (.err ("Timed out")) 1 0).1 =
      ⟨[], [⟨1, ("g"), ("text"), some ("T"), 0⟩], [1]⟩ ∧
    get_pending_notifications
      (process_pending_chat ⟨1, none, none, none⟩
        ⟨[], [⟨1, ("g"), ("text"), some ("T"), 0⟩], [1]⟩ (.ok 9) 1 0).1 1 = [] := by
  have h := flush_failure_retry ⟨1, none, none, none⟩
    ⟨[], [⟨1, ("g"), ("text"), some ("T"), 0⟩], [1]⟩ 1 0 ("Timed out") 9
    (by decide) (by decide)
  exact ⟨h.1, h.2.2⟩

/-! ## Claim C2: edit over resend -/

theorem find?_update_list (g : String) (c : Int) (h : String) (t : Option String)
    (now : Nat) (l : List SentRecord) :
    List.find? (sentKeyMatch g c) (l.map (fun r =>
      if sentKeyMatch g c r then
        { r with content_hash := h, message_title := t, updated_at := some now }
      else r)) =
    (List.find? (sentKeyMatch g c) l).map
      (fun r => { r with content_hash := h, message_title := t, updated_at := some now }) := by
  induction l with
  | nil => rfl
  | cons r rest ih =>
    by_cases hm : sentKeyMatch g c r = true
    · have hm2 : sentKeyMatch g c
          ({ r with content_hash := h, message_title := t, updated_at := some now }) = true := by
        simpa [sentKeyMatch] using hm
      simp [List.find?, hm, hm2]
    · simp only [Bool.not_eq_true] at hm
      simp [List.find?, hm, ih]

theorem get_sent_message_update (st : DbState) (g : String) (c : Int)
    (h : String) (t : Option String) (now : Nat) :
    get_sent_message (update_message_record st g c h t now) g c =
      (get_sent_message st g c).map
        (fun r => { r with content_hash := h, message_title := t,
                           updated_at := some now }) := by
  unfold get_sent_message update_message_record
  exact find?_update_list g c h t now st.sent

/-- C2 (amended): for an event and recipient with an existing DeliveryRecord
whose `content_hash` differs from the event's current hash and whose
`telegram_message_id` is non-null *and nonzero*, reconciliation issues a
transport edit (the rendered text with the updated marker appended), not a new
send; on edit success the record's `content_hash`, title and `updated_at` are
updated to the new values; on edit failure reconciliation falls through to a
fresh send exactly as if no record existed. -/
theorem edit_over_resend :
    ∀ (ev : EventMsg) (ci : ChatInfo) (st : DbState) (so : SendOutcome)
      (now : Nat) (nu : Int) (ex : SentRecord) (mid : Int),
      is_quiet_hours ci.quiet_hours_start ci.quiet_hours_end ci.quiet_hours_tz nu = false →
      get_sent_message st ev.guid ci.chat_id = some ex →
      ex.content_hash ≠ ev.content_hash →
      ex.telegram_message_id = some mid →
      mid ≠ 0 →
      (send_event_to_chat ev ci st .ok so now nu =
        (update_message_record st ev.guid ci.chat_id ev.content_hash (some ev.title) now,
         [.edit ci.chat_id mid (updatedText ev.message_text)])) ∧
      (get_sent_message (send_event_to_chat ev ci st .ok so now nu).1 ev.guid ci.chat_id =
        some { ex with content_hash := ev.content_hash, message_title := some ev.title,
                       updated_at := some now }) ∧
      (∀ e : String,
        send_event_to_chat ev ci st (.err e) so now nu =
          ((send_message st ci.chat_id ev so now).state,
           .edit ci.chat_id mid (updatedText ev.message_text) ::
             (send_message st ci.chat_id ev so now).actions)) := by
  intro ev ci st so now nu ex mid hq hget hne hmid hmid0
  have hbeq : (ex.content_hash == ev.content_hash) = false := beq_eq_false_iff_ne.mpr hne
  have hbne : (mid != 0) = true := bne_iff_ne.mpr hmid0
  have h1 : send_event_to_chat ev ci st .ok so now nu =
      (update_message_record st ev.guid ci.chat_id ev.content_hash (some ev.title) now,
       [.edit ci.chat_id mid (updatedText ev.message_text)]) := by
    simp [send_event_to_chat, hq, hget, hbeq, hmid, hbne]
  refine ⟨h1, ?_, ?_⟩
  · rw [h1]
    rw [show (update_message_record st ev.guid ci.chat_id ev.content_hash (some ev.title) now,
      [Action.edit ci.chat_id mid (updatedText ev.message_text)]).1 =
      update_message_record st ev.guid ci.chat_id ev.content_hash (some ev.title) now from rfl]
    rw [get_sent_message_update, hget]
    rfl
  · intro e
    simp [send_event_to_chat, hq, hget, hbeq, hmid, hbne]

/-- Counterexample to C2 as stated: a DeliveryRecord whose stored
`telegram_message_id` is 0 — non-null, and actually written by the summary
flush path — with changed content leads to a fresh send and no edit, because
`_send_event_to_chats` tests Python truthiness (`if telegram_msg_id:`), not
non-nullness. -/
theorem edit_over_resend_counterexample :
    get_sent_message ⟨[⟨("g1"), 1, some 0, ("h1"), some ("T"), 0, none, ("sent")⟩], [], [1]⟩
        ("g1") 1 =
      some ⟨("g1"), 1, some 0, ("h1"), some ("T"), 0, none, ("sent")⟩ ∧
    (send_event_to_chat ⟨("g1"), ("T"), ("body"), ("h2")⟩ ⟨1, none, none, none⟩
        ⟨[⟨("g1"), 1, some 0, ("h1"), some ("T"), 0, none, ("sent")⟩], [], [1]⟩
        .ok (.ok 7) 1 0).2 = [.send 1 ("body")] := by
  decide

/-- Witness for C2 (amended) at a concrete record with message id 42. -/
theorem edit_over_resend_witness :
    send_event_to_chat ⟨("g1"), ("T2"), ("body2"), ("h2")⟩ ⟨1, none, none, none⟩
        ⟨[⟨("g1"), 1, some 42, ("h1"), some ("T"), 0, none, ("sent")⟩], [], [1]⟩
        .ok (.ok 7) 3 0 =
      (update_message_record
        ⟨[⟨("g1"), 1, some 42, ("h1"), some ("T"), 0, none, ("sent")⟩], [], [1]⟩
        ("g1") 1 ("h2") (some ("T2")) 3,
       [.edit 1 42 (updatedText ("body2"))]) ∧
    get_sent_message (send_event_to_chat ⟨("g1"), ("T2"), ("body2"), ("h2")⟩
        ⟨1, none, none, none⟩
        ⟨[⟨("g1"), 1, some 42, ("h1"), some ("T"), 0, none, ("sent")⟩], [], [1]⟩
        .ok (.ok 7) 3 0).1 ("g1") 1 =
      some ⟨("g1"), 1, some 42, ("h2"), some ("T2"), 0, some 3, ("sent")⟩ := by
  have h := edit_over_resend ⟨("g1"), ("T2"), ("body2"), ("h2")⟩ ⟨1, none, none, none⟩
    ⟨[⟨("g1"), 1, some 42, ("h1"), some ("T"), 0, none, ("sent")⟩], [], [1]⟩
    (.ok 7) 3 0 ⟨("g1"), 1, some 42, ("h1"), some ("T"), 0, none, ("sent")⟩ 42
    (by decide) (by decide) (by decide) (by decide) (by decide)
  exact ⟨h.1, h.2.1⟩

/-! ## Claim C5: batch cap and per-item sentinel records -/

/-- Observation: does a `sent_messages` row carry the summary flush sentinel
for the given chat (message id 0 and fingerprint `"pending_summary"`)? -/
def summary_sentinel (chat : Int) (r : SentRecord) : Bool :=
  r.chat_id == chat && r.telegram_message_id == some 0 &&
    r.content_hash == ("pending_summary")

/-- Observation: number of summary-sentinel rows for the chat with guid `g`. -/
def summary_record_count (l : List SentRecord) (chat : Int) (g : String) : Nat :=
  l.countP (fun r => summary_sentinel chat r && r.message_guid == g)

/-- Observation: number of summary-sentinel rows for the chat whose guid is one
of `gs`. -/
def summary_record_total (l : List SentRecord) (chat : Int) (gs : List String) : Nat :=
  l.countP (fun r => summary_sentinel chat r && gs.any (fun g => r.message_guid == g))

theorem countP_disjoint_or {α : Type} (f g : α → Bool) (l : List α)
    (h : ∀ a, f a = true → g a = false) :
    l.countP (fun a => f a || g a) = l.countP f + l.countP g := by
  induction l with
  | nil => simp
  | cons a rest ih =>
    rw [List.countP_cons, List.countP_cons, List.countP_cons, ih]
    by_cases hf : f a = true
    · have hg := h a hf
      simp [hf, hg]
      omega
    · simp only [Bool.not_eq_true] at hf
      cases hga : g a
      · simp [hf, hga]
      · simp [hf, hga]
        omega

theorem summary_count_mark_self (st : DbState) (g : String) (c : Int)
    (t : Option String) (now : Nat) :
    summary_record_count
      (mark_message_sent st g c 0 ("pending_summary") t ("sent") now).sent c g = 1 := by
  unfold summary_record_count mark_message_sent
  rw [List.countP_append]
  have h0 : List.countP (fun r => summary_sentinel c r && r.message_guid == g)
      (st.sent.filter (fun r => !(sentKeyMatch g c r))) = 0 := by
    rw [List.countP_eq_zero]
    intro a ha hp
    rw [List.mem_filter] at ha
    simp only [summary_sentinel, sentKeyMatch, Bool.and_eq_true, beq_iff_eq,
      Bool.not_eq_true'] at ha hp
    exact absurd (by simp [hp.1.1.1, hp.2] : (a.message_guid == g && a.chat_id == c) = true)
      (by simp [ha.2])
  rw [h0]
  simp [summary_sentinel]

theorem summary_count_mark_other (st : DbState) (g g' : String) (c : Int)
    (t : Option String) (now : Nat) (hne : g' ≠ g) :
    summary_record_count
      (mark_message_sent st g c 0 ("pending_summary") t ("sent") now).sent c g' =
      summary_record_count st.sent c g' := by
  unfold summary_record_count mark_message_sent
  rw [List.countP_append, List.countP_filter]
  have hfun : (fun r => (summary_sentinel c r && r.message_guid == g') &&
      !(sentKeyMatch g c r)) =
      (fun r => summary_sentinel c r && r.message_guid == g') := by
    funext r
    by_cases hg : (r.message_guid == g') = true
    · have hkey : sentKeyMatch g c r = false := by
        have : r.message_guid = g' := by simpa using hg
        simp [sentKeyMatch, this, hne]
      simp [hkey]
    · simp only [Bool.not_eq_true] at hg
      simp [hg]
  rw [hfun]
  have hnew : List.countP (fun r => summary_sentinel c r && r.message_guid == g')
      [{ message_guid := g, chat_id := c, telegram_message_id := some 0,
         content_hash := ("pending_summary"), message_title := t, sent_at := now,
         updated_at := none, delivery_status := ("sent") }] = 0 := by
    simp [summary_sentinel, Ne.symm hne]
  rw [hnew]
  omega

theorem summary_count_foldl_not_mem (ps : List PendingRecord) (st : DbState)
    (c : Int) (now : Nat) (g' : String)
    (hnm : ∀ p ∈ ps, p.message_guid ≠ g') :
    summary_record_count
      ((ps.foldl (fun s pp => mark_message_sent s pp.message_guid c 0
        ("pending_summary") pp.event_title ("sent") now) st)).sent c g' =
      summary_record_count st.sent c g' := by
  induction ps generalizing st with
  | nil => rfl
  | cons p rest ih =>
    rw [List.foldl_cons]
    rw [ih _ (fun q hq => hnm q (List.mem_cons_of_mem _ hq))]
    exact summary_count_mark_other st p.message_guid g' c p.event_title now
      (Ne.symm (hnm p (List.mem_cons_self _ _)))

theorem summary_count_foldl_mem (ps : List PendingRecord) (st : DbState)
    (c : Int) (now : Nat)
    (hdist : ps.Pairwise (fun a b => a.message_guid ≠ b.message_guid)) :
    ∀ p ∈ ps, summary_record_count
      ((ps.foldl (fun s pp => mark_message_sent s pp.message_guid c 0
        ("pending_summary") pp.event_title ("sent") now) st)).sent c p.message_guid = 1 := by
  induction ps generalizing st with
  | nil => intro p hp; cases hp
  | cons q rest ih =>
    intro p hp
    rw [List.foldl_cons]
    rcases List.mem_cons.1 hp with rfl | hp'
    · have hq : ∀ x ∈ rest, x.message_guid ≠ p.message_guid := by
        intro x hx
        exact Ne.symm ((List.pairwise_cons.1 hdist).1 x hx)
      rw [summary_count_foldl_not_mem rest _ c now p.message_guid hq]
      exact summary_count_mark_self st p.message_guid c p.event_title now
    · exact ih _ (List.pairwise_cons.1 hdist).2 p hp'

theorem summary_total_eq_sum (l : List SentRecord) (c : Int) (gs : List String)
    (hnd : gs.Nodup) :
    summary_record_total l c gs =
      (gs.map (fun g => summary_record_count l c g)).sum := by
  induction gs with
  | nil => simp [summary_record_total]
  | cons g rest ih =>
    have hstep : summary_record_total l c (g :: rest) =
        summary_record_count l c g + summary_record_total l c rest := by
      unfold summary_record_total summary_record_count
      have hpt : (fun r : SentRecord =>
          summary_sentinel c r && (g :: rest).any (fun x => r.message_guid == x)) =
          (fun r : SentRecord => (summary_sentinel c r && r.message_guid == g) ||
           (summary_sentinel c r && rest.any (fun x => r.message_guid == x))) := by
        funext r
        rw [List.any_cons, Bool.and_or_distrib_left]
      rw [hpt]
      apply countP_disjoint_or
      intro a hfa
      simp only [Bool.and_eq_true, beq_iff_eq] at hfa
      rw [Bool.eq_false_iff]
      intro hcon
      simp only [Bool.and_eq_true, List.any_eq_true, beq_iff_eq] at hcon
      obtain ⟨-, x, hx, hgx⟩ := hcon
      rw [hfa.2] at hgx
      exact (List.nodup_cons.1 hnd).1 (hgx ▸ hx)
    rw [hstep, ih (List.nodup_cons.1 hnd).2, List.map_cons, List.sum_cons]

theorem sum_map_ones {α : Type} (l : List α) (f : α → Nat)
    (h : ∀ a ∈ l, f a = 1) : (l.map f).sum = l.length := by
  induction l with
  | nil => rfl
  | cons a rest ih =>
    simp [h a (List.mem_cons_self a rest),
      ih (fun x hx => h x (List.mem_cons_of_mem _ hx))]
    omega

theorem sent_of_clear (st : DbState) (c : Int) :
    (clear_pending_notifications st c).sent = st.sent := rfl

/-- C5: when a chat exiting its quiet window has 7 pending notifications the
flush sends exactly one summary message whose header counts 7, listing exactly
5 titles (each truncated at 50 characters) and the "+2 more" trailer, and
afterwards writes exactly one DeliveryRecord per original pending item — 7 in
total — all with sentinel message id 0 and fingerprint `"pending_summary"`,
and clears the queue. -/
theorem batch_cap_summary :
    ∀ (ci : ChatInfo) (st : DbState) (now : Nat) (nu : Int) (msgId : Int)
      (ps : List PendingRecord),
      is_quiet_hours ci.quiet_hours_start ci.quiet_hours_end ci.quiet_hours_tz nu = false →
      get_pending_notifications st ci.chat_id = ps →
      ps.length = 7 →
      ps.Pairwise (fun a b => a.message_guid ≠ b.message_guid) →
      (process_pending_chat ci st (.ok msgId) now nu).2 =
        [.send ci.chat_id (summaryText ps)] ∧
      toString ps.length = ("7") ∧
      (summaryTitleLines ps).length = 5 ∧
      summaryMoreLine ps = ("\n... e mais 2 eventos.") ∧
      (∀ p ∈ ps, ∀ t : String, p.event_title = some t → 50 < t.data.length →
        summaryTitle p = (⟨t.data.take 50⟩ : String) ++ ("...")) ∧
      (∀ p ∈ ps, summary_record_count
        (process_pending_chat ci st (.ok msgId) now nu).1.sent ci.chat_id
        p.message_guid = 1) ∧
      summary_record_total (process_pending_chat ci st (.ok msgId) now nu).1.sent
        ci.chat_id (ps.map (fun p => p.message_guid)) = 7 ∧
      get_pending_notifications
        (process_pending_chat ci st (.ok msgId) now nu).1 ci.chat_id = [] := by
  intro ci st now nu msgId ps hq hget hlen hdist
  match ps, hlen with
  | p :: q :: rest, hlen =>
  have hproc : process_pending_chat ci st (.ok msgId) now nu =
      (clear_pending_notifications
        ((p :: q :: rest).foldl (fun s pp => mark_message_sent s pp.message_guid
          ci.chat_id 0 ("pending_summary") pp.event_title ("sent") now) st) ci.chat_id,
       [.send ci.chat_id (summaryText (p :: q :: rest))]) := by
    simp [process_pending_chat, hq, hget]
  refine ⟨?_, ?_, ?_, ?_, ?_, ?_, ?_, ?_⟩
  · rw [hproc]
  · rw [hlen]
    decide
  · have hr : rest.length = 5 := by simpa using hlen
    simp [summaryTitleLines]
    omega
  · simp only [summaryMoreLine, hlen]
    decide
  · intro pp hpp t ht hlong
    have hne2 : t.data.isEmpty = false := by
      cases htd : t.data with
      | nil => rw [htd] at hlong; simp at hlong
      | cons a l => rfl
    have h50 : 50 < t.length := hlong
    simp [summaryTitle, ht, hne2, hlong]
    intro hc
    omega
  · intro pp hpp
    rw [hproc, sent_of_clear]
    exact summary_count_foldl_mem (p :: q :: rest) st ci.chat_id now hdist pp hpp
  · rw [hproc, sent_of_clear]
    have hnd : ((p :: q :: rest).map (fun x => x.message_guid)).Nodup :=
      hdist.map _ (fun a b h => h)
    rw [summary_total_eq_sum _ _ _ hnd]
    rw [sum_map_ones]
    · rw [List.length_map]
      exact hlen
    · intro g hg
      rw [List.mem_map] at hg
      obtain ⟨pp, hpp, rfl⟩ := hg
      exact summary_count_foldl_mem (p :: q :: rest) st ci.chat_id now hdist pp hpp
  · rw [hproc]
    exact get_pending_after_clear _ ci.chat_id

/-- Pending queue used by the C5 witness: 7 items for chat 1. -/
def c5ps : List PendingRecord :=
  [⟨1, ("g1"), ("m1"), some ("T1"), 0⟩, ⟨1, ("g2"), ("m2"), some ("T2"), 1⟩,
   ⟨1, ("g3"), ("m3"), some ("T3"), 2⟩, ⟨1, ("g4"), ("m4"), some ("T4"), 3⟩,
   ⟨1, ("g5"), ("m5"), some ("T5"), 4⟩, ⟨1, ("g6"), ("m6"), some ("T6"), 5⟩,
   ⟨1, ("g7"), ("m7"), some ("T7"), 6⟩]

/-- Database state used by the C5 witness. -/
def c5st : DbState := ⟨[], c5ps, [1]⟩

/-- Witness for C5 on a concrete 7-item queue. -/
theorem batch_cap_summary_witness :
    (process_pending_chat ⟨1, none, none, none⟩ c5st (.ok 9) 7 0).2 =
      [.send 1 (summaryText c5ps)] ∧
    (summaryTitleLines c5ps).length = 5 ∧
    summaryMoreLine c5ps = ("\n... e mais 2 eventos.") ∧
    summary_record_total (process_pending_chat ⟨1, none, none, none⟩ c5st (.ok 9) 7 0).1.sent
      1 (c5ps.map (fun p => p.message_guid)) = 7 ∧
    get_pending_notifications
      (process_pending_chat ⟨1, none, none, none⟩ c5st (.ok 9) 7 0).1 1 = [] := by
  have h := batch_cap_summary ⟨1, none, none, none⟩ c5st 7 0 9 c5ps
    (by decide) (by decide) (by decide) (by decide)
  exact ⟨h.1, h.2.2.1, h.2.2.2.1, h.2.2.2.2.2.2.1, h.2.2.2.2.2.2.2⟩

/-! ## Claim C1: at most one DeliveryRecord per (guid, chat) -/

/-- The spec's at-most-one-delivery invariant: no two rows of `sent_messages`
share the `(message_guid, chat_id)` key. -/
def WFsent (st : DbState) : Prop :=
  st.sent.Pairwise (fun a b => ¬(a.message_guid = b.message_guid ∧ a.chat_id = b.chat_id))

theorem wf_of_sent_eq (st st' : DbState) (h : st'.sent = st.sent) (hwf : WFsent st) :
    WFsent st' := by
  unfold WFsent at *
  rw [h]
  exact hwf

theorem sent_of_add_pending (st : DbState) (c : Int) (g tx : String)
    (t : Option String) (now : Nat) :
    (add_pending_notification st c g tx t now).sent = st.sent := by
  unfold add_pending_notification
  split <;> rfl

theorem wf_mark (st : DbState) (g : String) (c : Int) (m : Int) (h : String)
    (t : Option String) (s : String) (now : Nat) (hwf : WFsent st) :
    WFsent (mark_message_sent st g c m h t s now) := by
  unfold WFsent mark_message_sent at *
  rw [List.pairwise_append]
  refine ⟨List.Pairwise.sublist (List.filter_sublist _) hwf,
    List.pairwise_singleton _ _, ?_⟩
  intro a ha b hb
  rw [List.mem_filter] at ha
  rw [List.mem_singleton] at hb
  subst hb
  intro hcon
  have := ha.2
  simp only [sentKeyMatch, Bool.not_eq_true', Bool.and_eq_false_iff,
    beq_eq_false_iff_ne] at this
  rcases this with h1 | h2
  · exact h1 hcon.1
  · exact h2 hcon.2

theorem wf_update (st : DbState) (g : String) (c : Int) (h : String)
    (t : Option String) (now : Nat) (hwf : WFsent st) :
    WFsent (update_message_record st g c h t now) := by
  unfold WFsent update_message_record at *
  rw [List.pairwise_map]
  apply hwf.imp
  intro a b hab hcon
  apply hab
  have hga : (if sentKeyMatch g c a then
      { a with content_hash := h, message_title := t, updated_at := some now }
    else a).message_guid = a.message_guid := by split <;> rfl
  have hgb : (if sentKeyMatch g c b then
      { b with content_hash := h, message_title := t, updated_at := some now }
    else b).message_guid = b.message_guid := by split <;> rfl
  have hca : (if sentKeyMatch g c a then
      { a with content_hash := h, message_title := t, updated_at := some now }
    else a).chat_id = a.chat_id := by split <;> rfl
  have hcb : (if sentKeyMatch g c b then
      { b with content_hash := h, message_title := t, updated_at := some now }
    else b).chat_id = b.chat_id := by split <;> rfl
  rw [hga, hgb, hca, hcb] at hcon
  exact hcon

theorem wf_send_message (st : DbState) (chat : Int) (ev : EventMsg)
    (outcome : SendOutcome) (now : Nat) (hwf : WFsent st) :
    WFsent (send_message st chat ev outcome now).state := by
  rcases outcome with msgId | e
  · exact wf_mark st ev.guid chat msgId ev.content_hash (some ev.title) ("sent") now hwf
  · unfold send_message
    cases hb : permanent_errors.any (fun x => containsSub (lowerStr e) x)
    · simp only [hb]
      exact hwf
    · simp only [hb]
      exact wf_of_sent_eq st _ rfl hwf

theorem wf_send_event_to_chat (ev : EventMsg) (ci : ChatInfo) (st : DbState)
    (eo : EditOutcome) (so : SendOutcome) (now : Nat) (nu : Int) (hwf : WFsent st) :
    WFsent (send_event_to_chat ev ci st eo so now nu).1 := by
  unfold send_event_to_chat
  split
  · exact wf_of_sent_eq st _ (sent_of_add_pending st ci.chat_id ev.guid ev.message_text
      (some ev.title) now) hwf
  · split
    · split
      · exact hwf
      · split
        · split
          · split
            · exact wf_update st ev.guid ci.chat_id ev.content_hash (some ev.title) now hwf
            · exact wf_send_message st ci.chat_id ev so now hwf
          · exact wf_send_message st ci.chat_id ev so now hwf
        · exact wf_send_message st ci.chat_id ev so now hwf
    · exact wf_send_message st ci.chat_id ev so now hwf

theorem wf_send_event_to_chats (ev : EventMsg) (chats : List ChatInfo)
    (eo : Int → EditOutcome) (so : Int → SendOutcome) (st : DbState)
    (now : Nat) (nu : Int) (hwf : WFsent st) :
    WFsent (send_event_to_chats ev chats eo so st now nu).1 := by
  unfold send_event_to_chats
  suffices h : ∀ (cs : List ChatInfo) (acc : DbState × List Action), WFsent acc.1 →
      WFsent (cs.foldl (fun acc ci =>
        let r := send_event_to_chat ev ci acc.1 (eo ci.chat_id) (so ci.chat_id) now nu
        (r.1, acc.2 ++ r.2)) acc).1 by
    exact h chats (st, []) hwf
  intro cs
  induction cs with
  | nil => intro acc h; exact h
  | cons ci rest ih =>
    intro acc h
    rw [List.foldl_cons]
    exact ih _ (wf_send_event_to_chat ev ci acc.1 (eo ci.chat_id) (so ci.chat_id) now nu h)

theorem wf_reconcile_events (events : List EventMsg) (chats : List ChatInfo)
    (editO : String → Int → EditOutcome) (sendO : String → Int → SendOutcome)
    (st : DbState) (now : Nat) (nu : Int) (hwf : WFsent st) :
    WFsent (reconcile_events events chats editO sendO st now nu).1 := by
  unfold reconcile_events
  suffices h : ∀ (evs : List EventMsg) (acc : DbState × List Action), WFsent acc.1 →
      WFsent (evs.foldl (fun acc ev =>
        let r := send_event_to_chats ev chats (editO ev.guid) (sendO ev.guid) acc.1 now nu
        (r.1, acc.2 ++ r.2)) acc).1 by
    exact h events (st, []) hwf
  intro evs
  induction evs with
  | nil => intro acc h; exact h
  | cons ev rest ih =>
    intro acc h
    rw [List.foldl_cons]
    exact ih _ (wf_send_event_to_chats ev chats (editO ev.guid) (sendO ev.guid) acc.1 now nu h)

theorem wf_foldl_marks (ps : List PendingRecord) (st : DbState) (c : Int)
    (now : Nat) (hwf : WFsent st) :
    WFsent (ps.foldl (fun s pp => mark_message_sent s pp.message_guid c 0
      ("pending_summary") pp.event_title ("sent") now) st) := by
  induction ps generalizing st with
  | nil => exact hwf
  | cons p rest ih =>
    rw [List.foldl_cons]
    exact ih _ (wf_mark st p.message_guid c 0 ("pending_summary") p.event_title ("sent") now hwf)

theorem wf_process_pending_chat (ci : ChatInfo) (st : DbState) (fo : SendOutcome)
    (now : Nat) (nu : Int) (hwf : WFsent st) :
    WFsent (process_pending_chat ci st fo now nu).1 := by
  unfold process_pending_chat
  split
  · exact hwf
  · split
    · exact hwf
    · split
      · exact wf_of_sent_eq _ _ (sent_of_clear _ _)
          (wf_mark st _ ci.chat_id _ ("pending_delivered") _ ("sent") now hwf)
      · exact hwf
    · split
      · exact wf_of_sent_eq _ _ (sent_of_clear _ _)
          (wf_foldl_marks _ st ci.chat_id now hwf)
      · exact hwf

theorem wf_process_pending_all (chats : List ChatInfo) (flushO : Int → SendOutcome)
    (st : DbState) (now : Nat) (nu : Int) (hwf : WFsent st) :
    WFsent (process_pending_all chats flushO st now nu).1 := by
  unfold process_pending_all
  suffices h : ∀ (cs : List ChatInfo) (acc : DbState × List Action), WFsent acc.1 →
      WFsent (cs.foldl (fun acc ci =>
        let r := process_pending_chat ci acc.1 (flushO ci.chat_id) now nu
        (r.1, acc.2 ++ r.2)) acc).1 by
    exact h chats (st, []) hwf
  intro cs
  induction cs with
  | nil => intro acc h; exact h
  | cons ci rest ih =>
    intro acc h
    rw [List.foldl_cons]
    exact ih _ (wf_process_pending_chat ci acc.1 (flushO ci.chat_id) now nu h)

theorem wf_cleanup (st : DbState) (cutoff : Nat) (hwf : WFsent st) :
    WFsent (cleanup_old_messages st cutoff) := by
  unfold WFsent cleanup_old_messages at *
  exact List.Pairwise.sublist (List.filter_sublist _) hwf

/-- C1: a full cycle preserves the at-most-one-DeliveryRecord-per-(guid, chat)
invariant of the ledger, and reconciling an event against a chat that already
has a record with the same `content_hash` makes no transport call and leaves
the whole database state unchanged. -/
theorem at_most_one_delivery :
    (∀ (events : List EventMsg) (chats : List ChatInfo)
       (editO : String → Int → EditOutcome) (sendO : String → Int → SendOutcome)
       (flushO : Int → SendOutcome) (st : DbState) (now : Nat) (nu : Int) (cutoff : Nat),
      WFsent st →
      WFsent (check_rss_updates events chats editO sendO flushO st now nu cutoff).1) ∧
    (∀ (ev : EventMsg) (ci : ChatInfo) (st : DbState) (eo : EditOutcome)
       (so : SendOutcome) (now : Nat) (nu : Int) (ex : SentRecord),
      is_quiet_hours ci.quiet_hours_start ci.quiet_hours_end ci.quiet_hours_tz nu = false →
      get_sent_message st ev.guid ci.chat_id = some ex →
      ex.content_hash = ev.content_hash →
      send_event_to_chat ev ci st eo so now nu = (st, [])) := by
  constructor
  · intro events chats editO sendO flushO st now nu cutoff hwf
    unfold check_rss_updates
    cases he : events.isEmpty
    · cases hc : chats.isEmpty
      · simp only [Bool.false_eq_true, if_false]
        exact wf_cleanup _ cutoff
          (wf_process_pending_all chats flushO _ now nu
            (wf_reconcile_events events chats editO sendO st now nu hwf))
      · simp only [Bool.false_eq_true, if_false, if_true]
        exact hwf
    · simp only [if_true]
      exact hwf
  · intro ev ci st eo so now nu ex hq hget hh
    have hbeq : (ex.content_hash == ev.content_hash) = true := beq_iff_eq.mpr hh
    simp [send_event_to_chat, hq, hget, hbeq]

/-- Witness for C1: a cycle over a one-record ledger, and a skip on an
unchanged hash. -/
theorem at_most_one_delivery_witness :
    WFsent (check_rss_updates [⟨("g1"), ("T"), ("b"), ("h1")⟩] [⟨1, none, none, none⟩]
      (fun _ _ => .ok) (fun _ _ => .ok 5) (fun _ => .ok 6)
      ⟨[⟨("g1"), 1, some 3, ("h1"), some ("T"), 5, none, ("sent")⟩], [], [1]⟩ 9 0 0).1 ∧
    send_event_to_chat ⟨("g1"), ("T"), ("b"), ("h1")⟩ ⟨1, none, none, none⟩
      ⟨[⟨("g1"), 1, some 3, ("h1"), some ("T"), 5, none, ("sent")⟩], [], [1]⟩ .ok (.ok 5) 9 0 =
      (⟨[⟨("g1"), 1, some 3, ("h1"), some ("T"), 5, none, ("sent")⟩], [], [1]⟩, []) := by
  constructor
  · exact at_most_one_delivery.1 _ _ _ _ _ _ 9 0 0 (by unfold WFsent; decide)
  · exact at_most_one_delivery.2 _ _ _ .ok (.ok 5) 9 0
      ⟨("g1"), 1, some 3, ("h1"), some ("T"), 5, none, ("sent")⟩
      (by decide) (by decide) rfl

/-! ## Claim C3: when the flush step runs -/

instance : IsTotal PendingRecord (fun a b => a.created_at ≤ b.created_at) :=
  ⟨fun a b => Nat.le_total a.created_at b.created_at⟩

instance : IsTrans PendingRecord (fun a b => a.created_at ≤ b.created_at) :=
  ⟨fun _ _ _ => Nat.le_trans⟩

/-- C3 (amended): provided the cycle's fetch produced at least one event and
the active-chat snapshot is nonempty, the flush step runs exactly once per
cycle, after all events have been reconciled; recipients still inside their
quiet window are skipped untouched, and each flushed recipient's pending
notifications are read ordered by creation time.  (With zero fetched events,
or no active chats, the cycle returns early and no flush happens — see the
counterexample.) -/
theorem flush_gated_on_nonempty_fetch :
    (∀ (events : List EventMsg) (chats : List ChatInfo)
       (editO : String → Int → EditOutcome) (sendO : String → Int → SendOutcome)
       (flushO : Int → SendOutcome) (st : DbState) (now : Nat) (nu : Int) (cutoff : Nat),
      events ≠ [] → chats ≠ [] →
      check_rss_updates events chats editO sendO flushO st now nu cutoff =
        (cleanup_old_messages
          (process_pending_all chats flushO
            (reconcile_events events chats editO sendO st now nu).1 now nu).1 cutoff,
         (reconcile_events events chats editO sendO st now nu).2 ++
           (process_pending_all chats flushO
             (reconcile_events events chats editO sendO st now nu).1 now nu).2)) ∧
    (∀ (ci : ChatInfo) (st : DbState) (fo : SendOutcome) (now : Nat) (nu : Int),
      is_quiet_hours ci.quiet_hours_start ci.quiet_hours_end ci.quiet_hours_tz nu = true →
      process_pending_chat ci st fo now nu = (st, [])) ∧
    (∀ (st : DbState) (chat : Int),
      (get_pending_notifications st chat).Pairwise
        (fun a b => a.created_at ≤ b.created_at)) := by
  refine ⟨?_, ?_, ?_⟩
  · intro events chats editO sendO flushO st now nu cutoff h1 h2
    have he : ¬(events.isEmpty = true) := by simpa [List.isEmpty_iff] using h1
    have hc : ¬(chats.isEmpty = true) := by simpa [List.isEmpty_iff] using h2
    unfold check_rss_updates
    rw [if_neg he, if_neg hc]
  · intro ci st fo now nu h
    simp [process_pending_chat, h]
  · intro st chat
    unfold get_pending_notifications
    exact List.sorted_insertionSort
      (fun a b : PendingRecord => a.created_at ≤ b.created_at) _

/-- Counterexample to C3 as stated: with zero fetched events the cycle returns
before the flush step, even though a non-quiet chat has a pending notification
that flushing would have delivered. -/
theorem flush_not_run_on_empty_fetch :
    check_rss_updates [] [⟨1, none, none, none⟩] (fun _ _ => .ok) (fun _ _ => .ok 5)
      (fun _ => .ok 6) ⟨[], [⟨1, ("g"), ("m"), some ("T"), 0⟩], [1]⟩ 1 0 0 =
      (⟨[], [⟨1, ("g"), ("m"), some ("T"), 0⟩], [1]⟩, []) ∧
    is_quiet_hours none none none 0 = false ∧
    get_pending_notifications ⟨[], [⟨1, ("g"), ("m"), some ("T"), 0⟩], [1]⟩ 1 =
      [⟨1, ("g"), ("m"), some ("T"), 0⟩] ∧
    process_pending_chat ⟨1, none, none, none⟩
      ⟨[], [⟨1, ("g"), ("m"), some ("T"), 0⟩], [1]⟩ (.ok 6) 1 0 ≠
      (⟨[], [⟨1, ("g"), ("m"), some ("T"), 0⟩], [1]⟩, []) := by
  decide

/-- Event used by the C3 witness. -/
def c3ev : EventMsg := ⟨("g"), ("T"), ("b"), ("h")⟩

/-- Chat snapshot entry used by the C3 witness. -/
def c3ci : ChatInfo := ⟨1, none, none, none⟩

/-- Database state used by the C3 witness. -/
def c3st : DbState := ⟨[], [⟨1, ("g0"), ("m0"), some ("T0"), 0⟩], [1]⟩

/-- Witness for C3 (amended) at a concrete one-event cycle. -/
theorem flush_gated_on_nonempty_fetch_witness :
    check_rss_updates [c3ev] [c3ci] (fun _ _ => .ok) (fun _ _ => .ok 5) (fun _ => .ok 6)
      c3st 1 0 0 =
      (cleanup_old_messages
        (process_pending_all [c3ci] (fun _ => .ok 6)
          (reconcile_events [c3ev] [c3ci] (fun _ _ => .ok) (fun _ _ => .ok 5) c3st 1 0).1
          1 0).1 0,
       (reconcile_events [c3ev] [c3ci] (fun _ _ => .ok) (fun _ _ => .ok 5) c3st 1 0).2 ++
         (process_pending_all [c3ci] (fun _ => .ok 6)
           (reconcile_events [c3ev] [c3ci] (fun _ _ => .ok) (fun _ _ => .ok 5) c3st 1 0).1
           1 0).2) ∧
    process_pending_chat ⟨1, some ("00:00"), some ("23:59"), some ("UTC")⟩
      ⟨[], [], []⟩ (.ok 1) 0 0 = (⟨[], [], []⟩, []) ∧
    (get_pending_notifications ⟨[], [⟨1, ("a"), ("m"), none, 5⟩, ⟨1, ("b"), ("m"), none, 2⟩],
      []⟩ 1).Pairwise (fun a b => a.created_at ≤ b.created_at) := by
  refine ⟨?_, ?_, ?_⟩
  · exact flush_gated_on_nonempty_fetch.1 [c3ev] [c3ci] (fun _ _ => .ok) (fun _ _ => .ok 5)
      (fun _ => .ok 6) c3st 1 0 0 (by decide) (by decide)
  · exact flush_gated_on_nonempty_fetch.2.1 ⟨1, some ("00:00"), some ("23:59"), some ("UTC")⟩
      ⟨[], [], []⟩ (.ok 1) 0 0 (by decide)
  · exact flush_gated_on_nonempty_fetch.2.2
      ⟨[], [⟨1, ("a"), ("m"), none, 5⟩, ⟨1, ("b"), ("m"), none, 2⟩], []⟩ 1

end IxbrBot
